import Mathlib

/-!
Verification of the pi_microsleep_hard library (src/pi_microsleep_hard.c):
a shallow embedding of `setup_microsleep_hard` and `microsleep_hard`,
together with theorems settling the specification claims about them.

The two external collaborators (`get_pi_version__` from get_pi_version.h and
`map_peripheral__` from map_peripheral.h) are modelled as an environment
record: the resolver result is an integer, the mapper is a function from a
physical address to a returned virtual address (possibly the MAP_FAILED
sentinel).  The hardware free-running counter is modelled as a trace
`clock : Nat → Nat`: `clock t` is the raw value delivered by the t-th read
of the `clo` register during one `microsleep_hard` call (the register itself
is 32 bits wide, so each read observes `clock t % 2^32`).
-/

/-- 2^32, the modulus of the 32-bit free-running counter and of `uint32_t`
arithmetic in the C source. -/
def two32 : Nat := 4294967296

/-- Modelled from the spec: the physical peripheral base address for the
BCM2835 SoC (Pi generations 0 and 1).  The constant lives in the header
`bcm.h`, which is not part of src/; its exact numeric value is irrelevant to
every claim, which only relate the mapper argument to this named constant. -/
def BCM2835_PERI_BASE_PHYS_ADDR : Nat := 0x20000000

/-- Modelled from the spec: the physical peripheral base address for the
BCM2837 SoC (Pi generations 2 and 3), from the missing header `bcm.h`. -/
def BCM2837_PERI_BASE_PHYS_ADDR : Nat := 0x3F000000

/-- Modelled from the spec: the physical peripheral base address for the
BCM2711 SoC (Pi generation 4), from the missing header `bcm.h`. -/
def BCM2711_PERI_BASE_PHYS_ADDR : Nat := 0xFE000000

/-- Modelled from the spec: the physical peripheral base address for the
BCM2712 SoC (Pi generation 5), from the missing header `bcm.h`. -/
def BCM2712_PERI_BASE_PHYS_ADDR : Nat := 0x107C000000

/-- Modelled from the spec: the fixed offset of the system-timer register
block from the peripheral base, from the missing header `bcm.h`. -/
def BCM_SYS_TIMER_BASE_OFFSET : Nat := 0x3000

/-- Modelled from the spec: the `ENOPIVER` error code from the missing header
`pi_microsleep_hard.h`; `setup_microsleep_hard` returns `-ENOPIVER` when the
platform generation is unrecognized (the spec's `UnsupportedPlatform`).  Only
its being a fixed nonzero code matters to the claims. -/
def ENOPIVER : Int := 95

/-- The `MAP_FAILED` sentinel of sys/mman.h, `(void *) -1`, viewed as a
`uintptr_t` value on a 64-bit host: 2^64 - 1. -/
def MAP_FAILED : Nat := 18446744073709551615

/-- `(int) MAP_FAILED`: the value `setup_microsleep_hard` returns when the
mapper fails; truncating the all-ones pointer to `int` gives -1 (the spec's
`MappingFailed` status). -/
def MAP_FAILED_INT : Int := -1

/-- The environment of external collaborators consumed by the core:
the Platform Resolver result (`get_pi_version__`, an `int`) and the
Peripheral Mapper (`map_peripheral__`, physical address to virtual address
or `MAP_FAILED`). -/
structure Env where
  piVersion : Int
  mapPeripheral : Nat → Nat

/-- The process-wide mutable state of the module: the global
`sys_timer_virt_addr` (a `uintptr_t`, 0 = NULL before any mapping), the
static `config_flag`, and the static register-map pointer `sys_timer_reg`
(`none` = NULL, `some v` = points at virtual address v). -/
structure State where
  sys_timer_virt_addr : Nat
  config_flag : Bool
  sys_timer_reg : Option Nat
deriving DecidableEq

/-- The process state at program start: all globals zero-initialized. -/
def initialState : State :=
  { sys_timer_virt_addr := 0, config_flag := false, sys_timer_reg := none }

/-- Effect log of one `setup_microsleep_hard` call: whether the Platform
Resolver was queried, and the physical address handed to the Peripheral
Mapper if it was invoked. -/
structure SetupEffects where
  resolverQueried : Bool
  mapperArg : Option Nat
deriving DecidableEq

/-- The base-address dispatch of `setup_microsleep_hard` (the if-chain on
`pi_version`, source lines 73-87): generations 0 and 1 select the BCM2835
base, 2 and 3 the BCM2837 base, 4 the BCM2711 base, 5 the BCM2712 base;
anything else falls through to the `-ENOPIVER` branch (`none` here). -/
def bcmPeriBase (pi_version : Int) : Option Nat :=
  if pi_version = 0 ∨ pi_version = 1 then some BCM2835_PERI_BASE_PHYS_ADDR
  else if pi_version = 2 ∨ pi_version = 3 then some BCM2837_PERI_BASE_PHYS_ADDR
  else if pi_version = 4 then some BCM2711_PERI_BASE_PHYS_ADDR
  else if pi_version = 5 then some BCM2712_PERI_BASE_PHYS_ADDR
  else none

/-- Shallow embedding of `setup_microsleep_hard` (source lines 58-113).
Returns the C return value, the updated globals, and the effect log.
Mirrors the source exactly: early return 0 when `config_flag` is set;
resolver query; base-address dispatch with `-ENOPIVER` fallback; the
mapper result is stored into the global `sys_timer_virt_addr` BEFORE the
`MAP_FAILED` check; only on success are `config_flag` and `sys_timer_reg`
updated. -/
def setup_microsleep_hard (env : Env) (st : State) : Int × State × SetupEffects :=
  if st.config_flag then
    (0, st, ⟨false, none⟩)
  else
    let pi_version := env.piVersion
    match bcmPeriBase pi_version with
    | none => (-ENOPIVER, st, ⟨true, none⟩)
    | some bcm_peri_base_phys_addr =>
      let sys_timer_phys_addr := bcm_peri_base_phys_addr + BCM_SYS_TIMER_BASE_OFFSET
      let virt := env.mapPeripheral sys_timer_phys_addr
      let st1 := { st with sys_timer_virt_addr := virt }
      if virt = MAP_FAILED then
        (MAP_FAILED_INT, st1, ⟨true, some sys_timer_phys_addr⟩)
      else
        (0, { st1 with config_flag := true, sys_timer_reg := some virt },
         ⟨true, some sys_timer_phys_addr⟩)

/-- The seven registers of the system-timer overlay `struct sys_timer_reg_map`
(source lines 44-52), in address order. -/
inductive Reg
  | cs | clo | chi | c0 | c1 | c2 | c3
deriving DecidableEq

/-- One hardware access through the register overlay: a side-effecting read
delivering a value, or a side-effecting write of a value. -/
inductive Access
  | read (r : Reg) (v : Nat)
  | write (r : Reg) (v : Nat)
deriving DecidableEq

/-- The outcome of a `microsleep_hard` call: normal return with the C return
value; undefined behavior from dereferencing the never-installed register
pointer (`sys_timer_reg` still NULL after a failed lazy setup); or spinning
past the modelling fuel without the counter reaching the target. -/
inductive MicroResult
  | ok (ret : Int)
  | ub
  | spinForever
deriving DecidableEq

/-- The target computation of `microsleep_hard` (source line 128):
`timout = sys_timer_reg->clo + usec` in `uint32_t` arithmetic, where `start`
is the 32-bit value just read from `clo` and `usec` the `unsigned int`
argument (truncated mod 2^32 at the call boundary). -/
def timeoutOf (start usec : Nat) : Nat := (start + usec % two32) % two32

/-- The spin loop of `microsleep_hard` (source line 131):
`while (sys_timer_reg->clo < timout);` with each iteration re-reading `clo`
live from hardware.  `spin clock timout fuel i` runs the loop whose next
`clo` read is read number `i` of the trace; it returns the index of the
first read whose 32-bit value is not below `timout` (the read on which the
loop condition fails and the loop exits), or `none` if `fuel` reads are
exhausted first. -/
def spin (clock : Nat → Nat) (timout : Nat) : Nat → Nat → Option Nat
  | 0, _ => none
  | fuel + 1, i =>
    if clock i % two32 < timout then spin clock timout fuel (i + 1) else some i

/-- Shallow embedding of `microsleep_hard` (source lines 115-162).  Returns
the outcome, the updated globals, and the list of hardware accesses the call
performed through the register overlay.  Mirrors the source exactly: when
`config_flag` is unset it calls `setup_microsleep_hard` and DISCARDS its
return value (source lines 116-118 check only the flag and never look at the
status); it then dereferences `sys_timer_reg` — undefined behavior if that
pointer was never installed; otherwise read number 0 of the trace forms
`timout` and reads 1, 2, ... are the loop checks; on loop exit it returns 0
unconditionally (source line 161). -/
def microsleep_hard (env : Env) (clock : Nat → Nat) (fuel : Nat) (st : State)
    (usec : Nat) : MicroResult × State × List Access :=
  let st1 := if st.config_flag then st else (setup_microsleep_hard env st).2.1
  match st1.sys_timer_reg with
  | none => (MicroResult.ub, st1, [])
  | some _ =>
    let start := clock 0 % two32
    let timout := timeoutOf start usec
    match spin clock timout fuel 1 with
    | none =>
      (MicroResult.spinForever, st1,
       (List.range (fuel + 1)).map fun t => Access.read Reg.clo (clock t % two32))
    | some j =>
      (MicroResult.ok 0, st1,
       (List.range (j + 1)).map fun t => Access.read Reg.clo (clock t % two32))

/-- The supported-generation predicate: exactly the `pi_version` values the
dispatch chain of `setup_microsleep_hard` recognizes. -/
def supportedVersion (v : Int) : Prop :=
  v = 0 ∨ v = 1 ∨ v = 2 ∨ v = 3 ∨ v = 4 ∨ v = 5

instance (v : Int) : Decidable (supportedVersion v) := by
  unfold supportedVersion; infer_instance

/-- The counter value `v` has reached or passed the modular target
`start + d (mod 2^32)`: the modular distance travelled from `start` to `v`
is at least `d` (for 32-bit values `start`, `v`). -/
def reachedTarget (start d v : Nat) : Prop :=
  d ≤ (v + two32 - start % two32) % two32

instance (start d v : Nat) : Decidable (reachedTarget start d v) := by
  unfold reachedTarget; infer_instance

/-- Running `setup_microsleep_hard` once per environment in a list, threading
the process state; collects each call's return value and effect log. -/
def setupRuns : List Env → State → List (Int × SetupEffects) × State
  | [], st => ([], st)
  | e :: es, st =>
    let r := setup_microsleep_hard e st
    let rest := setupRuns es r.2.1
    ((r.1, r.2.2) :: rest.1, rest.2)

/-- How many of the recorded calls invoked the Peripheral Mapper. -/
def mapperCallCount (rs : List (Int × SetupEffects)) : Nat :=
  (rs.filter fun p => p.2.mapperArg.isSome).length

/-- Whether a hardware access is a read of the `clo` register. -/
def isCloRead : Access → Bool
  | Access.read Reg.clo _ => true
  | _ => false

/-- Whether a hardware access is a write (to any register). -/
def isWrite : Access → Bool
  | Access.write _ _ => true
  | _ => false

/-- How many of the accesses in a list are writes. -/
def writeCount (l : List Access) : Nat := (l.filter isWrite).length

-- Sanity checks on the embedding (concrete evaluation).
example :
    (setup_microsleep_hard ⟨4, fun _ => 700⟩ initialState).1 = 0 := by decide

example :
    (setup_microsleep_hard ⟨7, fun _ => 700⟩ initialState).1 = -ENOPIVER := by
  decide

example :
    (microsleep_hard ⟨4, fun _ => 700⟩ (fun t => 10 + t) 5 initialState 2).1 =
      MicroResult.ok 0 := by decide

/-! ### Helper lemmas about the spin loop and the initializer -/

/-- If the spin loop exits at read `j`, then `j` is at or after the starting
read, the value of read `j` is not below the timeout (32-bit comparison), and
every earlier loop read was below the timeout. -/
theorem spin_eq_some_iff_first (clock : Nat → Nat) (timout : Nat) :
    ∀ (fuel i j : Nat), spin clock timout fuel i = some j →
      i ≤ j ∧ timout ≤ clock j % two32 ∧
        ∀ k, i ≤ k → k < j → clock k % two32 < timout := by
  intro fuel
  induction fuel with
  | zero => intro i j h; simp [spin] at h
  | succ fuel ih =>
    intro i j h
    unfold spin at h
    by_cases hc : clock i % two32 < timout
    · rw [if_pos hc] at h
      obtain ⟨h1, h2, h3⟩ := ih (i + 1) j h
      refine ⟨by omega, h2, ?_⟩
      intro k hk1 hk2
      rcases Nat.eq_or_lt_of_le hk1 with rfl | hk
      · exact hc
      · exact h3 k hk hk2
    · rw [if_neg hc] at h
      obtain rfl : i = j := by simpa using h
      exact ⟨Nat.le_refl i, by omega, fun k hk1 hk2 => by omega⟩

/-- If some read within the fuel budget is at or above the timeout, the spin
loop exits (at that read or earlier). -/
theorem spin_isSome_of_reach (clock : Nat → Nat) (timout : Nat) :
    ∀ (fuel i k : Nat), i ≤ k → k < i + fuel → timout ≤ clock k % two32 →
      (spin clock timout fuel i).isSome = true := by
  intro fuel
  induction fuel with
  | zero => intro i k h1 h2 h3; omega
  | succ fuel ih =>
    intro i k h1 h2 h3
    unfold spin
    by_cases hc : clock i % two32 < timout
    · rw [if_pos hc]
      have hik : i ≠ k := by intro h; rw [h] at hc; omega
      exact ih (i + 1) k (by omega) (by omega) h3
    · rw [if_neg hc]
      rfl

/-- A call to `setup_microsleep_hard` in the already-configured state returns
success at once, changes nothing, queries no resolver and invokes no mapper. -/
theorem setup_configured (env : Env) (st : State) (h : st.config_flag = true) :
    setup_microsleep_hard env st = (0, st, ⟨false, none⟩) := by
  unfold setup_microsleep_hard
  rw [h]
  rfl

/-- The dispatch chain recognizes a version exactly when it is one of the six
supported generations. -/
theorem bcmPeriBase_isSome_iff (v : Int) :
    (bcmPeriBase v).isSome = true ↔ supportedVersion v := by
  unfold bcmPeriBase supportedVersion
  split_ifs with h1 h2 h3 h4 <;> simp <;> tauto

/-- A successful first-time `setup_microsleep_hard` call sets the
configuration flag and records a mapper invocation. -/
theorem setup_success_state (env : Env) (st : State)
    (hflag : st.config_flag = false)
    (h0 : (setup_microsleep_hard env st).1 = 0) :
    (setup_microsleep_hard env st).2.1.config_flag = true ∧
      (setup_microsleep_hard env st).2.2.mapperArg.isSome = true := by
  unfold setup_microsleep_hard at h0 ⊢
  rw [hflag] at h0 ⊢
  simp only [Bool.false_eq_true, if_false] at h0 ⊢
  cases hb : bcmPeriBase env.piVersion with
  | none =>
    rw [hb] at h0
    simp [ENOPIVER] at h0
  | some base =>
    rw [hb] at h0
    by_cases hm : env.mapPeripheral (base + BCM_SYS_TIMER_BASE_OFFSET) = MAP_FAILED
    · simp [hm, MAP_FAILED_INT] at h0
    · simp [hm]

/-- Once the configuration flag is set, any further sequence of
`setup_microsleep_hard` calls returns success with no effects and leaves the
state untouched. -/
theorem setupRuns_configured (es : List Env) (st : State)
    (h : st.config_flag = true) :
    setupRuns es st = (es.map fun _ => (0, ⟨false, none⟩), st) := by
  induction es with
  | nil => rfl
  | cons e es ih => simp [setupRuns, setup_configured e st h, ih]

/-! ### Claim theorems -/

/-- C1: the claim says a `microsleep_hard` call in the uninitialized state
propagates an Initializer failure without reading the counter.  The code
instead discards the return value of `setup_microsleep_hard` (lines 116-118)
and goes on to dereference the never-installed `sys_timer_reg` pointer —
undefined behavior, not a return of the failure status.  This theorem
evaluates the embedding at both failing inputs: an unsupported platform
(resolver returns 6) and a failing mapper; in each case setup reports the
failure status but `microsleep_hard` does not return it. -/
theorem microsleep_lazy_init_failure_not_propagated :
    (setup_microsleep_hard ⟨6, fun _ => 700⟩ initialState).1 = -ENOPIVER ∧
    microsleep_hard ⟨6, fun _ => 700⟩ (fun _ => 0) 10 initialState 10 =
      (MicroResult.ub, initialState, []) ∧
    (setup_microsleep_hard ⟨4, fun _ => MAP_FAILED⟩ initialState).1 =
      MAP_FAILED_INT ∧
    (microsleep_hard ⟨4, fun _ => MAP_FAILED⟩ (fun _ => 0) 10 initialState 10).1 =
      MicroResult.ub := by
  refine ⟨by decide, by decide, by decide, by decide⟩

/-- C2 counterexample: with the counter at 2^32 - 1 and delay 2, the target
wraps to 1, the very first loop check `clo < timout` is already false
(4294967295 < 1 fails in unsigned comparison), and `microsleep_hard` returns
success after two reads even though the counter never reached or passed
`start + d (mod 2^32)`.  The spin comparison is a plain unsigned `<`, not a
wraparound-correct modular comparison. -/
theorem microsleep_wraparound_counterexample :
    microsleep_hard ⟨4, fun _ => 700⟩ (fun _ => two32 - 1) 10
        ⟨700, true, some 700⟩ 2 =
      (MicroResult.ok 0, ⟨700, true, some 700⟩,
       [Access.read Reg.clo (two32 - 1), Access.read Reg.clo (two32 - 1)]) ∧
    ¬ reachedTarget (two32 - 1) 2 (two32 - 1) := by
  refine ⟨by decide, by decide⟩

/-- C2 amended: in the initialized state, for delays and start values whose
target computation does NOT wrap past 2^32 (`start + d < 2^32`), if the spin
loop exits at read `j` then the call returns success having performed exactly
the reads 0..j, the value observed at the final read is at least `start + d`,
and no earlier loop read had yet reached `start + d` — the call does not
return before the counter reaches the target.  (When `start + d` wraps, the
loop instead exits immediately: see the counterexample.) -/
theorem microsleep_monotonic_no_overflow
    (env : Env) (clock : Nat → Nat) (fuel : Nat) (st : State) (usec p j : Nat)
    (hflag : st.config_flag = true) (hreg : st.sys_timer_reg = some p)
    (hnear : clock 0 % two32 + usec < two32)
    (hspin : spin clock (timeoutOf (clock 0 % two32) usec) fuel 1 = some j) :
    microsleep_hard env clock fuel st usec =
      (MicroResult.ok 0, st,
       (List.range (j + 1)).map fun t => Access.read Reg.clo (clock t % two32)) ∧
    clock 0 % two32 + usec ≤ clock j % two32 ∧
    ∀ k, 1 ≤ k → k < j → clock k % two32 < clock 0 % two32 + usec := by
  have husec : usec < two32 := by omega
  have htim : timeoutOf (clock 0 % two32) usec = clock 0 % two32 + usec := by
    unfold timeoutOf
    rw [Nat.mod_eq_of_lt husec, Nat.mod_eq_of_lt hnear]
  obtain ⟨h1, h2, h3⟩ := spin_eq_some_iff_first clock _ fuel 1 j hspin
  rw [htim] at h2 h3
  refine ⟨?_, h2, h3⟩
  simp [microsleep_hard, hflag, hreg, hspin]

/-- C2 amended, witnessed at a concrete run: counter trace 100, 101, 102,
..., delay 3; the loop exits at read 3 with value 103 = start + 3. -/
theorem microsleep_monotonic_no_overflow_witness :
    microsleep_hard ⟨4, fun _ => 700⟩ (fun t => 100 + t) 10
        ⟨700, true, some 700⟩ 3 =
      (MicroResult.ok 0, ⟨700, true, some 700⟩,
       (List.range 4).map fun t => Access.read Reg.clo ((100 + t) % two32)) ∧
    100 % two32 + 3 ≤ 103 % two32 := by
  have h := microsleep_monotonic_no_overflow ⟨4, fun _ => 700⟩ (fun t => 100 + t)
    10 ⟨700, true, some 700⟩ 3 700 3 rfl rfl (by decide) (by decide)
  exact ⟨h.1, h.2.1⟩

/-- C3: setup is idempotent.  For any N ≥ 1 calls starting from an
unconfigured state whose first call succeeds: the whole sequence performs
exactly one mapper invocation; every call after the first returns success
with no resolver query and no mapper invocation; and the final state is
exactly the state the first call installed (later calls alter nothing). -/
theorem setup_idempotent (e : Env) (es : List Env) (st : State)
    (hflag : st.config_flag = false)
    (hsucc : (setup_microsleep_hard e st).1 = 0) :
    mapperCallCount (setupRuns (e :: es) st).1 = 1 ∧
    (setupRuns (e :: es) st).1.tail =
      (es.map fun _ => ((0 : Int), (⟨false, none⟩ : SetupEffects))) ∧
    (setupRuns (e :: es) st).2 = (setup_microsleep_hard e st).2.1 := by
  obtain ⟨hflag2, hsome⟩ := setup_success_state e st hflag hsucc
  have hruns : setupRuns es (setup_microsleep_hard e st).2.1 =
      (es.map fun _ => ((0 : Int), (⟨false, none⟩ : SetupEffects)),
       (setup_microsleep_hard e st).2.1) :=
    setupRuns_configured es _ hflag2
  refine ⟨?_, ?_, ?_⟩
  · simp only [setupRuns, hruns]
    simp [mapperCallCount, hsome, List.filter_map, Function.comp]
  · simp [setupRuns, hruns]
  · simp [setupRuns, hruns]

/-- C3 witnessed on three concrete calls: a succeeding first call, then a
repeat call and a call with an unsupported resolver result; exactly one
mapper invocation, both later calls are effect-free successes. -/
theorem setup_idempotent_witness :
    mapperCallCount
      (setupRuns ([⟨4, fun _ => 700⟩, ⟨4, fun _ => 700⟩, ⟨7, fun _ => 900⟩] :
          List Env) initialState).1 = 1 ∧
    (setupRuns ([⟨4, fun _ => 700⟩, ⟨4, fun _ => 700⟩, ⟨7, fun _ => 900⟩] :
        List Env) initialState).1.tail =
      (([⟨4, fun _ => 700⟩, ⟨7, fun _ => 900⟩] : List Env).map
        fun _ => ((0 : Int), (⟨false, none⟩ : SetupEffects))) ∧
    (setupRuns ([⟨4, fun _ => 700⟩, ⟨4, fun _ => 700⟩, ⟨7, fun _ => 900⟩] :
        List Env) initialState).2 =
      (setup_microsleep_hard ⟨4, fun _ => 700⟩ initialState).2.1 :=
  setup_idempotent ⟨4, fun _ => 700⟩
    ([⟨4, fun _ => 700⟩, ⟨7, fun _ => 900⟩] : List Env)
    initialState rfl (by decide)

/-- C4: a first-time setup with a resolver result outside the supported set
returns `-ENOPIVER` with state untouched and NO mapper invocation; with a
result inside the set it always reaches the mapper (the effect log records a
mapper invocation whatever the mapper then returns). -/
theorem setup_unsupported_platform (e : Env) (st : State)
    (hflag : st.config_flag = false) :
    (¬ supportedVersion e.piVersion →
      setup_microsleep_hard e st = (-ENOPIVER, st, ⟨true, none⟩)) ∧
    (supportedVersion e.piVersion →
      (setup_microsleep_hard e st).2.2.mapperArg.isSome = true) := by
  constructor
  · intro hns
    have hb : bcmPeriBase e.piVersion = none := by
      cases h : bcmPeriBase e.piVersion with
      | none => rfl
      | some b =>
        exact absurd ((bcmPeriBase_isSome_iff e.piVersion).mp (by rw [h]; rfl)) hns
    simp [setup_microsleep_hard, hflag, hb]
  · intro hs
    obtain ⟨b, hb⟩ :=
      Option.isSome_iff_exists.mp ((bcmPeriBase_isSome_iff _).mpr hs)
    simp only [setup_microsleep_hard, hflag, Bool.false_eq_true, if_false, hb]
    split <;> rfl

/-- C4 witnessed: resolver result 7 fails with no mapping; result 4 invokes
the mapper. -/
theorem setup_unsupported_platform_witness :
    setup_microsleep_hard ⟨7, fun _ => 700⟩ initialState =
      (-ENOPIVER, initialState, ⟨true, none⟩) ∧
    (setup_microsleep_hard ⟨4, fun _ => 700⟩ initialState).2.2.mapperArg.isSome =
      true :=
  ⟨(setup_unsupported_platform ⟨7, fun _ => 700⟩ initialState rfl).1 (by decide),
   (setup_unsupported_platform ⟨4, fun _ => 700⟩ initialState rfl).2 (by decide)⟩

/-- C5: when the mapper fails, setup returns the `MappingFailed` status
`(int) MAP_FAILED = -1` and leaves the configuration flag unset, so a
subsequent setup call takes the full path again: it queries the resolver,
and (for a supported resolver result) invokes the mapper again — the failure
does not latch the initialized state. -/
theorem setup_mapping_failed_retries (e e2 : Env) (st : State)
    (hflag : st.config_flag = false)
    (hsupp : supportedVersion e.piVersion)
    (hfail : ∀ a, e.mapPeripheral a = MAP_FAILED) :
    (setup_microsleep_hard e st).1 = MAP_FAILED_INT ∧
    (setup_microsleep_hard e st).2.1.config_flag = false ∧
    (setup_microsleep_hard e2 (setup_microsleep_hard e st).2.1).2.2.resolverQueried =
      true ∧
    (supportedVersion e2.piVersion →
      (setup_microsleep_hard e2
        (setup_microsleep_hard e st).2.1).2.2.mapperArg.isSome = true) := by
  obtain ⟨b, hb⟩ :=
    Option.isSome_iff_exists.mp ((bcmPeriBase_isSome_iff _).mpr hsupp)
  have h1 : setup_microsleep_hard e st =
      (MAP_FAILED_INT, { st with sys_timer_virt_addr := MAP_FAILED },
       ⟨true, some (b + BCM_SYS_TIMER_BASE_OFFSET)⟩) := by
    simp [setup_microsleep_hard, hflag, hb, hfail]
  rw [h1]
  have hflag1 : ({ st with sys_timer_virt_addr := MAP_FAILED } : State).config_flag =
      false := hflag
  refine ⟨rfl, hflag1, ?_, ?_⟩
  · simp only [setup_microsleep_hard, hflag, Bool.false_eq_true, if_false]
    cases hb2 : bcmPeriBase e2.piVersion with
    | none => rfl
    | some b2 =>
      by_cases hm : e2.mapPeripheral (b2 + BCM_SYS_TIMER_BASE_OFFSET) = MAP_FAILED <;>
        simp [hm]
  · intro hs2
    obtain ⟨b2, hb2⟩ :=
      Option.isSome_iff_exists.mp ((bcmPeriBase_isSome_iff _).mpr hs2)
    simp only [setup_microsleep_hard, hflag, Bool.false_eq_true, if_false, hb2]
    by_cases hm : e2.mapPeripheral (b2 + BCM_SYS_TIMER_BASE_OFFSET) = MAP_FAILED <;>
      simp [hm]

/-- C5 witnessed: a failing mapper on a supported platform, then a retry with
a working mapper. -/
theorem setup_mapping_failed_retries_witness :
    (setup_microsleep_hard ⟨4, fun _ => MAP_FAILED⟩ initialState).1 =
      MAP_FAILED_INT ∧
    (setup_microsleep_hard ⟨4, fun _ => MAP_FAILED⟩ initialState).2.1.config_flag =
      false ∧
    (setup_microsleep_hard ⟨4, fun _ => 700⟩
      (setup_microsleep_hard ⟨4, fun _ => MAP_FAILED⟩ initialState).2.1).2.2.resolverQueried =
      true ∧
    (setup_microsleep_hard ⟨4, fun _ => 700⟩
      (setup_microsleep_hard ⟨4, fun _ => MAP_FAILED⟩ initialState).2.1).2.2.mapperArg.isSome =
      true := by
  have h := setup_mapping_failed_retries ⟨4, fun _ => MAP_FAILED⟩ ⟨4, fun _ => 700⟩
    initialState rfl (by decide) (fun a => rfl)
  exact ⟨h.1, h.2.1, h.2.2.1, h.2.2.2 (by decide)⟩

/-- C6: in the initialized state with delay 0, the computed target equals the
32-bit counter value read at the start; provided the counter has not ticked
between the two reads, the loop condition is false on the first check, so the
call returns success having performed only the initial read and that single
check — no spinning. -/
theorem microsleep_zero_delay (env : Env) (clock : Nat → Nat) (fuel : Nat)
    (st : State) (p : Nat)
    (hflag : st.config_flag = true) (hreg : st.sys_timer_reg = some p)
    (hfuel : 1 ≤ fuel) (hck : clock 1 = clock 0) :
    timeoutOf (clock 0 % two32) 0 = clock 0 % two32 ∧
    spin clock (timeoutOf (clock 0 % two32) 0) fuel 1 = some 1 ∧
    microsleep_hard env clock fuel st 0 =
      (MicroResult.ok 0, st,
       [Access.read Reg.clo (clock 0 % two32),
        Access.read Reg.clo (clock 0 % two32)]) := by
  have htim : timeoutOf (clock 0 % two32) 0 = clock 0 % two32 := by
    unfold timeoutOf
    simp [Nat.mod_mod_of_dvd]
  have hspin : spin clock (timeoutOf (clock 0 % two32) 0) fuel 1 = some 1 := by
    cases fuel with
    | zero => omega
    | succ f =>
      unfold spin
      rw [htim, hck]
      simp
  refine ⟨htim, hspin, ?_⟩
  simp [microsleep_hard, hflag, hreg, hspin, List.range_succ, hck]

/-- C6 witnessed at a concrete run: counter steady at 55, delay 0; the call
returns at the first check. -/
theorem microsleep_zero_delay_witness :
    timeoutOf (55 % two32) 0 = 55 % two32 ∧
    spin (fun _ => 55) (timeoutOf (55 % two32) 0) 1 1 = some 1 ∧
    microsleep_hard ⟨4, fun _ => 700⟩ (fun _ => 55) 1 ⟨700, true, some 700⟩ 0 =
      (MicroResult.ok 0, ⟨700, true, some 700⟩,
       [Access.read Reg.clo (55 % two32), Access.read Reg.clo (55 % two32)]) :=
  microsleep_zero_delay ⟨4, fun _ => 700⟩ (fun _ => 55) 1 ⟨700, true, some 700⟩
    700 rfl rfl (by decide) rfl

/-- C7: on a first-time setup, the physical address handed to the mapper is
exactly the base-address-table entry for the resolved generation plus the
fixed timer offset: generations 0 and 1 use the BCM2835 base, 2 and 3 the
BCM2837 base, 4 the BCM2711 base, 5 the BCM2712 base. -/
theorem setup_timer_block_address (e : Env) (st : State)
    (hflag : st.config_flag = false) :
    ((e.piVersion = 0 ∨ e.piVersion = 1) →
      (setup_microsleep_hard e st).2.2.mapperArg =
        some (BCM2835_PERI_BASE_PHYS_ADDR + BCM_SYS_TIMER_BASE_OFFSET)) ∧
    ((e.piVersion = 2 ∨ e.piVersion = 3) →
      (setup_microsleep_hard e st).2.2.mapperArg =
        some (BCM2837_PERI_BASE_PHYS_ADDR + BCM_SYS_TIMER_BASE_OFFSET)) ∧
    (e.piVersion = 4 →
      (setup_microsleep_hard e st).2.2.mapperArg =
        some (BCM2711_PERI_BASE_PHYS_ADDR + BCM_SYS_TIMER_BASE_OFFSET)) ∧
    (e.piVersion = 5 →
      (setup_microsleep_hard e st).2.2.mapperArg =
        some (BCM2712_PERI_BASE_PHYS_ADDR + BCM_SYS_TIMER_BASE_OFFSET)) := by
  have key : ∀ b, bcmPeriBase e.piVersion = some b →
      (setup_microsleep_hard e st).2.2.mapperArg =
        some (b + BCM_SYS_TIMER_BASE_OFFSET) := by
    intro b hb
    simp only [setup_microsleep_hard, hflag, Bool.false_eq_true, if_false, hb]
    by_cases hm : e.mapPeripheral (b + BCM_SYS_TIMER_BASE_OFFSET) = MAP_FAILED <;>
      simp [hm]
  refine ⟨fun hv => ?_, fun hv => ?_, fun hv => ?_, fun hv => ?_⟩
  · exact key BCM2835_PERI_BASE_PHYS_ADDR
      (by rcases hv with h | h <;> rw [h] <;> decide)
  · exact key BCM2837_PERI_BASE_PHYS_ADDR
      (by rcases hv with h | h <;> rw [h] <;> decide)
  · exact key BCM2711_PERI_BASE_PHYS_ADDR (by rw [hv]; decide)
  · exact key BCM2712_PERI_BASE_PHYS_ADDR (by rw [hv]; decide)

/-- C7 witnessed at the four table rows (generations 0, 2, 4, 5). -/
theorem setup_timer_block_address_witness :
    (setup_microsleep_hard ⟨0, fun _ => 700⟩ initialState).2.2.mapperArg =
      some (BCM2835_PERI_BASE_PHYS_ADDR + BCM_SYS_TIMER_BASE_OFFSET) ∧
    (setup_microsleep_hard ⟨2, fun _ => 700⟩ initialState).2.2.mapperArg =
      some (BCM2837_PERI_BASE_PHYS_ADDR + BCM_SYS_TIMER_BASE_OFFSET) ∧
    (setup_microsleep_hard ⟨4, fun _ => 700⟩ initialState).2.2.mapperArg =
      some (BCM2711_PERI_BASE_PHYS_ADDR + BCM_SYS_TIMER_BASE_OFFSET) ∧
    (setup_microsleep_hard ⟨5, fun _ => 700⟩ initialState).2.2.mapperArg =
      some (BCM2712_PERI_BASE_PHYS_ADDR + BCM_SYS_TIMER_BASE_OFFSET) :=
  ⟨(setup_timer_block_address ⟨0, fun _ => 700⟩ initialState rfl).1 (Or.inl rfl),
   (setup_timer_block_address ⟨2, fun _ => 700⟩ initialState rfl).2.1 (Or.inl rfl),
   (setup_timer_block_address ⟨4, fun _ => 700⟩ initialState rfl).2.2.1 rfl,
   (setup_timer_block_address ⟨5, fun _ => 700⟩ initialState rfl).2.2.2 rfl⟩

/-- C8: in the initialized state, with the counter near the 32-bit maximum
and a small delay whose target crosses the 2^32 boundary, the spin loop still
terminates when the counter advances monotonically modulo 2^32 (one tick per
read here), and the call returns success.  Read number `usec` carries the
target value itself, so at most `usec` loop iterations happen. -/
theorem microsleep_terminates_on_wraparound (env : Env) (clock : Nat → Nat)
    (fuel : Nat) (st : State) (p usec : Nat)
    (hflag : st.config_flag = true) (hreg : st.sys_timer_reg = some p)
    (hadv : ∀ t, clock t % two32 = (clock 0 + t) % two32)
    (husec : usec < two32)
    (hwrap : two32 ≤ clock 0 % two32 + usec)
    (hfuel : usec ≤ fuel) :
    (spin clock (timeoutOf (clock 0 % two32) usec) fuel 1).isSome = true ∧
    (microsleep_hard env clock fuel st usec).1 = MicroResult.ok 0 := by
  have h0 : clock 0 % two32 < two32 := Nat.mod_lt _ (by decide)
  have husec1 : 1 ≤ usec := by omega
  have hval : clock usec % two32 = timeoutOf (clock 0 % two32) usec := by
    rw [hadv usec]
    unfold timeoutOf
    exact Nat.add_mod _ _ _
  have hterm : (spin clock (timeoutOf (clock 0 % two32) usec) fuel 1).isSome =
      true :=
    spin_isSome_of_reach clock _ fuel 1 usec husec1 (by omega) (le_of_eq hval.symm)
  refine ⟨hterm, ?_⟩
  obtain ⟨j, hj⟩ := Option.isSome_iff_exists.mp hterm
  simp [microsleep_hard, hflag, hreg, hj]

/-- C8 witnessed: counter two ticks below wraparound, delay 5 crossing the
boundary; the loop terminates and the call returns success. -/
theorem microsleep_terminates_on_wraparound_witness :
    (spin (fun t => (4294967294 + t) % two32)
      (timeoutOf ((4294967294 + 0) % two32 % two32) 5) 5 1).isSome = true ∧
    (microsleep_hard ⟨4, fun _ => 700⟩ (fun t => (4294967294 + t) % two32) 5
      ⟨700, true, some 700⟩ 5).1 = MicroResult.ok 0 :=
  microsleep_terminates_on_wraparound ⟨4, fun _ => 700⟩
    (fun t => (4294967294 + t) % two32) 5 ⟨700, true, some 700⟩ 700 5 rfl rfl
    (by intro t; simp only [two32]; omega) (by decide) (by decide) (by decide)

/-- A list of `clo` reads consists only of `clo` reads and holds no write. -/
theorem cloReads_all (g : Nat → Nat) (n : Nat) :
    (((List.range n).map fun t => Access.read Reg.clo (g t)).all isCloRead =
      true) ∧
    writeCount ((List.range n).map fun t => Access.read Reg.clo (g t)) = 0 := by
  constructor
  · simp [List.all_map, Function.comp, isCloRead]
  · simp [writeCount, List.filter_map, Function.comp, isWrite]

/-- Every access list a `microsleep_hard` call can produce is either empty or
a prefix of the trace of `clo` reads. -/
theorem microsleep_accesses_shape (env : Env) (clock : Nat → Nat) (fuel : Nat)
    (st : State) (usec : Nat) :
    (microsleep_hard env clock fuel st usec).2.2 = [] ∨
    ∃ n, (microsleep_hard env clock fuel st usec).2.2 =
      (List.range n).map fun t => Access.read Reg.clo (clock t % two32) := by
  simp only [microsleep_hard]
  cases h1 : (if st.config_flag = true then st
      else (setup_microsleep_hard env st).2.1).sys_timer_reg with
  | none => left; rfl
  | some q =>
    cases h2 : spin clock (timeoutOf (clock 0 % two32) usec) fuel 1 with
    | none => right; exact ⟨fuel + 1, rfl⟩
    | some j => right; exact ⟨j + 1, rfl⟩

/-- C9: the spin-wait engine only reads `clo`: for every call (any state, any
environment, any counter trace, any delay), every hardware access the call
performs is a read of the `clo` register, and the call performs zero writes —
in particular it never writes the GPU-reserved compare registers c0 and c2. -/
theorem microsleep_only_reads_clo (env : Env) (clock : Nat → Nat) (fuel : Nat)
    (st : State) (usec : Nat) :
    ((microsleep_hard env clock fuel st usec).2.2.all isCloRead) = true ∧
    writeCount (microsleep_hard env clock fuel st usec).2.2 = 0 := by
  rcases microsleep_accesses_shape env clock fuel st usec with h | ⟨n, h⟩
  · simp [h, writeCount]
  · rw [h]
    exact cloReads_all (fun t => clock t % two32) n

/-- C10: when the mapper fails on a first-time setup, the returned state has
the process-wide virtual-address global already overwritten with the mapper's
failure sentinel (the store to the global precedes the failure check), while
the overlay register pointer and the configuration flag keep their pre-call
values. -/
theorem setup_map_failed_overwrites_global (e : Env) (st : State)
    (hflag : st.config_flag = false)
    (hsupp : supportedVersion e.piVersion)
    (hfail : ∀ a, e.mapPeripheral a = MAP_FAILED) :
    (setup_microsleep_hard e st).2.1.sys_timer_virt_addr = MAP_FAILED ∧
    (setup_microsleep_hard e st).2.1.sys_timer_reg = st.sys_timer_reg ∧
    (setup_microsleep_hard e st).2.1.config_flag = st.config_flag := by
  obtain ⟨b, hb⟩ :=
    Option.isSome_iff_exists.mp ((bcmPeriBase_isSome_iff _).mpr hsupp)
  simp [setup_microsleep_hard, hflag, hb, hfail]

/-- C10 witnessed: failing mapper on platform generation 4 from the start
state. -/
theorem setup_map_failed_overwrites_global_witness :
    (setup_microsleep_hard ⟨4, fun _ => MAP_FAILED⟩ initialState).2.1.sys_timer_virt_addr =
      MAP_FAILED ∧
    (setup_microsleep_hard ⟨4, fun _ => MAP_FAILED⟩ initialState).2.1.sys_timer_reg =
      initialState.sys_timer_reg ∧
    (setup_microsleep_hard ⟨4, fun _ => MAP_FAILED⟩ initialState).2.1.config_flag =
      initialState.config_flag :=
  setup_map_failed_overwrites_global ⟨4, fun _ => MAP_FAILED⟩ initialState rfl
    (by decide) (fun a => rfl)
